import Mathlib

/-!
Shallow embedding of the `acccore` in-memory double-entry bookkeeping core
(`ManagerInMemoryImpl.go` plus the entity declarations).

The three Go global maps (`InMemoryJournalTable`, `InMemoryAccountTable`,
`InMemoryTransactionTable`) are modelled as association lists inside a `DB`
record; each manager operation becomes a pure function from the current `DB`
(and the current clock value, standing for `time.Now()`) to an error/result
together with the next `DB`.  Go `time.Time` is modelled as `Nat`
(`Before` = `<`, `After` = `>`), and Go `int64` amounts as `Int`.
-/

namespace Acccore

/-- Go map lookup `m[k]` on the association-list model: the first binding
of the key, if any. -/
def lookupRec {α : Type} : List (String × α) → String → Option α
  | [], _ => none
  | p :: rest, k => if p.1 = k then some p.2 else lookupRec rest k

/-- Go map assignment `m[k] = v`: replace the binding when the key is
present, otherwise append a fresh binding. -/
def setRec {α : Type} : List (String × α) → String → α → List (String × α)
  | [], k, v => [(k, v)]
  | p :: rest, k, v => if p.1 = k then (k, v) :: rest else p :: setRec rest k v

/-- Go in-place mutation through the stored pointer
(`m[k].field = ...`): rewrite the record bound to the key. -/
def updateRec {α : Type} : List (String × α) → String → (α → α) → List (String × α)
  | [], _, _ => []
  | p :: rest, k, f => if p.1 = k then (k, f p.2) :: rest else p :: updateRec rest k f

/-- `TransactionType` is a plain Go `int` (`type TransactionType int`). -/
abbrev TransactionType := Int

/-- Enum value `DEBIT TransactionType = iota` (= 0). -/
def DEBIT : TransactionType := 0

/-- Enum value `CREDIT` (= 1). -/
def CREDIT : TransactionType := 1

/-- Row of `InMemoryJournalTable`. -/
structure InMemoryJournalRecords where
  journalId : String
  journalingTime : Nat
  description : String
  reversal : Bool
  reversedJournalId : String
  amount : Int
  createTime : Nat
  createBy : String
  deriving DecidableEq, Repr

/-- Row of `InMemoryAccountTable`. -/
structure InMemoryAccountRecord where
  currency : String
  id : String
  name : String
  description : String
  baseTransactionType : TransactionType
  balance : Int
  coa : String
  createTime : Nat
  createBy : String
  updateTime : Nat
  updateBy : String
  deriving DecidableEq, Repr

/-- Row of `InMemoryTransactionTable`. -/
structure InMemoryTransactionRecords where
  transactionId : String
  transactionTime : Nat
  accountNumber : String
  journalId : String
  description : String
  transactionType : TransactionType
  amount : Int
  accountBalance : Int
  createTime : Nat
  createBy : String
  deriving DecidableEq, Repr

/-- The three Go global tables, bundled as one state value. -/
structure DB where
  journals : List (String × InMemoryJournalRecords)
  accounts : List (String × InMemoryAccountRecord)
  transactions : List (String × InMemoryTransactionRecords)
  deriving DecidableEq, Repr

/-- The error values of the package (`Err*` variables), one constructor per
distinct error used by the embedded functions. -/
inductive Err where
  | journalNil
  | journalMissingId
  | journalNoTransaction
  | journalMissingAuthor
  | journalAlreadyPersisted
  | journalTransactionMissingID
  | journalTransactionAlreadyPersisted
  | journalNotBalance
  | journalTransactionAccountDuplicate
  | journalTransactionAccountNotPersist
  | journalTransactionMixCurrency
  | journalCanNotDoubleReverse
  | journalIdNotFound
  | journalLoadReversalInconsistent
  | accountMissingID
  | accountMissingName
  | accountMissingDescription
  | accountMissingCreator
  | accountAlreadyPersisted
  | accountIsNotPersisted
  | accountIdNotFound
  | transactionNotFound
  deriving DecidableEq, Repr

/-- The caller-supplied `Transaction` value as read by `PersistJournal`
through the `Transaction` interface getters. -/
structure TransactionInput where
  transactionId : String
  accountNumber : String
  description : String
  transactionType : TransactionType
  amount : Int
  createBy : String
  deriving DecidableEq, Repr

/-- The caller-supplied `Journal` value as read by `PersistJournal` through
the `Journal` interface getters; `GetReversedJournal()` is `nil` or a journal
of which only `GetJournalID()` is consulted, so it is an `Option String`. -/
structure JournalInput where
  journalId : String
  description : String
  createBy : String
  reversedJournalId : Option String
  transactions : List TransactionInput
  deriving DecidableEq, Repr

/-- The `debitSum` accumulation loop of `PersistJournal` step 5:
`if trx.GetTransactionType() == DEBIT { debitSum += trx.GetAmount() }`. -/
def debitSum : List TransactionInput → Int
  | [] => 0
  | t :: rest => (if t.transactionType = DEBIT then t.amount else 0) + debitSum rest

/-- The `creditSum` accumulation loop of `PersistJournal` step 5. -/
def creditSum : List TransactionInput → Int
  | [] => 0
  | t :: rest => (if t.transactionType = CREDIT then t.amount else 0) + creditSum rest

/-- `PersistJournal` step 6: the `accountDupCheck` map loop, which fails as
soon as a transaction's account number was already seen. -/
def hasDupAccount : List String → List TransactionInput → Bool
  | _, [] => false
  | seen, t :: rest =>
    if seen.contains t.accountNumber then true
    else hasDupAccount (t.accountNumber :: seen) rest

/-- `InMemoryAccountTable[trx.GetAccountNumber()].currency` as read in
`PersistJournal` step 8.  The `none` default is unreachable on the paths
where it is used, because step 7 has already checked that every referenced
account exists. -/
def currencyOf (db : DB) (t : TransactionInput) : String :=
  match lookupRec db.accounts t.accountNumber with
  | some a => a.currency
  | none => ""

/-- `PersistJournal` step 8: every transaction's account currency must equal
the currency of the first transaction's account. -/
def mixedCurrency (db : DB) : List TransactionInput → Bool
  | [] => false
  | t0 :: rest => rest.any (fun t => currencyOf db t != currencyOf db t0)

/-- `IsJournalIdReversed`: errors with `ErrJournalIdNotFound` when the given
ID is not a persisted journal; otherwise scans the journal table for any
record naming the ID as its `reversedJournalId`. -/
def IsJournalIdReversed (db : DB) (journalId : String) : Except Err Bool :=
  match lookupRec db.journals journalId with
  | some _ =>
    if db.journals.any (fun p => p.2.reversedJournalId == journalId) then Except.ok true
    else Except.ok false
  | none => Except.error Err.journalIdNotFound

/-- One iteration of the write loop of `PersistJournal` ("2 Save the
Transactions"): build the `InMemoryTransactionRecords` row, compute the new
account balance from the account's stored balance and base transaction type,
store the row, and update the account's balance/updateTime/updateBy.  The
`none` defaults are unreachable: step 7 checked that the account exists. -/
def applyTransaction (db : DB) (now : Nat) (journalId : String) (t : TransactionInput) : DB :=
  let acct := lookupRec db.accounts t.accountNumber
  let balance : Int := match acct with | some a => a.balance | none => 0
  let accountTrxType : TransactionType := match acct with | some a => a.baseTransactionType | none => 0
  let newBalance : Int :=
    if t.transactionType = accountTrxType then balance + t.amount else balance - t.amount
  let transactionToInsert : InMemoryTransactionRecords :=
    { transactionId := t.transactionId
      transactionTime := now
      accountNumber := t.accountNumber
      journalId := journalId
      description := t.description
      transactionType := t.transactionType
      amount := t.amount
      accountBalance := newBalance
      createTime := now
      createBy := t.createBy }
  { db with
    transactions := setRec db.transactions t.transactionId transactionToInsert
    accounts := updateRec db.accounts t.accountNumber
      (fun a => { a with balance := newBalance, updateTime := now, updateBy := t.createBy }) }

/-- The write phase of `PersistJournal` ("ALL is OK. So lets start
persisting."): insert the journal row (amount = the credit sum; reversal
linkage copied from the input), then run the transaction write loop. -/
def doPersist (db : DB) (now : Nat) (j : JournalInput) : DB :=
  let journalToInsert : InMemoryJournalRecords :=
    { journalId := j.journalId
      journalingTime := now
      description := j.description
      reversal := j.reversedJournalId.isSome
      reversedJournalId := j.reversedJournalId.getD ""
      amount := creditSum j.transactions
      createTime := now
      createBy := j.createBy }
  let db1 : DB := { db with journals := setRec db.journals j.journalId journalToInsert }
  j.transactions.foldl (fun acc t => applyTransaction acc now j.journalId t) db1

/-- The validation phase of `InMemoryJournalManager.PersistJournal`
(steps 1-9): the first failing check's error, or `none` when every check
passes.  The Go function returns from inside the failing check's loop;
here each loop is an `any`/recursive scan with the same first-failure
semantics (all failures inside one loop carry the same error value). -/
def validateJournal (db : DB) (j : JournalInput) : Option Err :=
  if j.journalId.length = 0 then some Err.journalMissingId
  else if j.transactions.length = 0 then some Err.journalNoTransaction
  else if j.createBy.length = 0 then some Err.journalMissingAuthor
  else if (lookupRec db.journals j.journalId).isSome then some Err.journalAlreadyPersisted
  else if j.transactions.any (fun t => t.transactionId.length == 0) then
    some Err.journalTransactionMissingID
  else if j.transactions.any (fun t => (lookupRec db.transactions t.transactionId).isSome) then
    some Err.journalTransactionAlreadyPersisted
  else if creditSum j.transactions ≠ debitSum j.transactions then
    some Err.journalNotBalance
  else if hasDupAccount [] j.transactions then
    some Err.journalTransactionAccountDuplicate
  else if j.transactions.any (fun t => !(lookupRec db.accounts t.accountNumber).isSome) then
    some Err.journalTransactionAccountNotPersist
  else if mixedCurrency db j.transactions then
    some Err.journalTransactionMixCurrency
  else
    match j.reversedJournalId with
    | some _ =>
      match IsJournalIdReversed db j.journalId with
      | Except.error e => some e
      | Except.ok true => some Err.journalCanNotDoubleReverse
      | Except.ok false => none
    | none => none

/-- `InMemoryJournalManager.PersistJournal`: run the validation chain and,
only when every check passed, the write phase.  A `nil` journal argument is
the `none` case.  The result pairs the returned error (if any) with the
state of the three tables after the call. -/
def PersistJournal (db : DB) (now : Nat) (jrn : Option JournalInput) : Option Err × DB :=
  match jrn with
  | none => (some Err.journalNil, db)
  | some j =>
    match validateJournal db j with
    | some e => (some e, db)
    | none => (none, doPersist db now j)

/-- Modelled from the spec: the pagination utility (`PageRequest`) is not
part of the given source files; the spec states listings take "a zero-based
page index and page size". -/
structure PageRequest where
  pageNo : Nat
  itemSize : Nat
  deriving DecidableEq, Repr

/-- The pagination metadata record; the fields are the ones the source
reads (`Offset`, `PageSize`, `Page`, `TotalEntries`, `TotalPages`). -/
structure PageResult where
  Page : Nat
  PageSize : Nat
  Offset : Nat
  TotalEntries : Nat
  TotalPages : Nat
  deriving DecidableEq, Repr

/-- Modelled from the spec: `PageResultFor` is not part of the given source
files.  Per the spec, a listing returns "the matching slice in ascending
time order plus total-count/total-pages metadata", "a page size larger than
the remaining items returns exactly the remaining items", and "an
out-of-range page returns an empty result, not an error"; so the offset is
the page index times the requested size clamped to the total count, and the
effective page size is the requested size clamped to the remaining items. -/
def PageResultFor (request : PageRequest) (count : Nat) : PageResult :=
  let offset := min (request.pageNo * request.itemSize) count
  { Page := request.pageNo
    PageSize := min request.itemSize (count - offset)
    Offset := offset
    TotalEntries := count
    TotalPages := (count + request.itemSize - 1) / request.itemSize }

/-- Insert `x` into an ascending list, after every element it is not
strictly less than; the building block of the stable sort below. -/
def insertOrdered {α : Type} (lt : α → α → Bool) (x : α) : List α → List α
  | [] => [x]
  | y :: ys => if lt x y then x :: y :: ys else y :: insertOrdered lt x ys

/-- Stable sort modelling Go's `sort.SliceStable` with a strict `less`
comparator: elements are inserted left to right, each placed after any
earlier element it does not strictly precede. -/
def sortStable {α : Type} (lt : α → α → Bool) (l : List α) : List α :=
  l.foldl (fun acc x => insertOrdered lt x acc) []

/-- The `BaseTransaction` value built when reading a transaction row back
out of the store. -/
structure BaseTransaction where
  transactionID : String
  transactionTime : Nat
  accountNumber : String
  journalID : String
  description : String
  transactionType : TransactionType
  amount : Int
  accountBalance : Int
  createTime : Nat
  createBy : String
  deriving DecidableEq, Repr

/-- Copy an `InMemoryTransactionRecords` row into a `BaseTransaction`, field
for field, as `GetJournalById` / `GetTransactionById` /
`ListTransactionsOnAccount` do. -/
def toBaseTransaction (r : InMemoryTransactionRecords) : BaseTransaction :=
  { transactionID := r.transactionId
    transactionTime := r.transactionTime
    accountNumber := r.accountNumber
    journalID := r.journalId
    description := r.description
    transactionType := r.transactionType
    amount := r.amount
    accountBalance := r.accountBalance
    createTime := r.createTime
    createBy := r.createBy }

/-- The `BaseJournal` value built by `GetJournalById`; `reversedJournal` is
the recursively-loaded reversed journal (`nil` when not a reversal). -/
inductive BaseJournal where
  | mk (journalID : String) (journalingTime : Nat) (description : String)
      (reversal : Bool) (reversedJournal : Option BaseJournal) (amount : Int)
      (transactions : List BaseTransaction) (createTime : Nat) (createBy : String)

/-- Accessor for the journal ID of a loaded `BaseJournal`. -/
def BaseJournal.journalID : BaseJournal → String
  | .mk jid _ _ _ _ _ _ _ _ => jid

/-- The transaction population loop of `GetJournalById`: all stored
transaction rows whose `journalId` matches. -/
def transactionsOfJournal (db : DB) (journalId : String) : List BaseTransaction :=
  (db.transactions.filter (fun p => p.2.journalId == journalId)).map (fun p => toBaseTransaction p.2)

/-- `InMemoryJournalManager.GetJournalById`.  The Go function recurses
unboundedly through `reversedJournalId` links (and diverges on a cyclic
chain); the embedding takes explicit fuel, and callers pass one more than
the table size, which covers every terminating chain. -/
def GetJournalById (db : DB) : Nat → String → Except Err BaseJournal
  | 0, _ => Except.error Err.journalLoadReversalInconsistent
  | fuel + 1, journalId =>
    match lookupRec db.journals journalId with
    | none => Except.error Err.journalIdNotFound
    | some journalRecord =>
      if journalRecord.reversal then
        match GetJournalById db fuel journalRecord.reversedJournalId with
        | Except.error _ => Except.error Err.journalLoadReversalInconsistent
        | Except.ok reversed =>
          Except.ok (BaseJournal.mk journalRecord.journalId journalRecord.journalingTime
            journalRecord.description journalRecord.reversal (some reversed)
            journalRecord.amount (transactionsOfJournal db journalRecord.journalId)
            journalRecord.createTime journalRecord.createBy)
      else
        Except.ok (BaseJournal.mk journalRecord.journalId journalRecord.journalingTime
          journalRecord.description journalRecord.reversal none
          journalRecord.amount (transactionsOfJournal db journalRecord.journalId)
          journalRecord.createTime journalRecord.createBy)

/-- The result-filling loop of `ListJournals`: load each listed record by ID,
propagating the first load error. -/
def collectJournals (db : DB) (fuel : Nat) : List InMemoryJournalRecords → Except Err (List BaseJournal)
  | [] => Except.ok []
  | r :: rest =>
    match GetJournalById db fuel r.journalId with
    | Except.error e => Except.error e
    | Except.ok j =>
      match collectJournals db fuel rest with
      | Except.error e => Except.error e
      | Except.ok js => Except.ok (j :: js)

/-- The `allResult` selection loop of `ListJournals`: journal rows with
`journalingTime` strictly between `fromTime` and `untilTime`
(`After(from) && Before(until)`). -/
def journalsInRange (db : DB) (fromTime untilTime : Nat) : List InMemoryJournalRecords :=
  (db.journals.map (fun p => p.2)).filter
    (fun j => fromTime < j.journalingTime && j.journalingTime < untilTime)

/-- `InMemoryJournalManager.ListJournals`: filter journal rows by the time
range, sort stably by journaling time, page the slice, and load each
journal in the page. -/
def ListJournals (db : DB) (fromTime untilTime : Nat) (request : PageRequest) :
    Except Err (PageResult × List BaseJournal) :=
  let allResult := journalsInRange db fromTime untilTime
  let count := allResult.length
  let pageResult := PageResultFor request count
  let sorted := sortStable (fun a b => decide (a.journalingTime < b.journalingTime)) allResult
  let slice := (sorted.drop pageResult.Offset).take pageResult.PageSize
  match collectJournals db (db.journals.length + 1) slice with
  | Except.error e => Except.error e
  | Except.ok journals => Except.ok (pageResult, journals)

/-- The `BaseAccount` value built when reading an account row back out of
the store. -/
structure BaseAccount where
  currency : String
  accountNumber : String
  name : String
  description : String
  baseTransactionType : TransactionType
  balance : Int
  coa : String
  createTime : Nat
  createBy : String
  updateTime : Nat
  updateBy : String
  deriving DecidableEq, Repr

/-- Copy an `InMemoryAccountRecord` row into a `BaseAccount`, field for
field, as `GetAccountById` / `ListAccounts` do. -/
def toBaseAccount (s : InMemoryAccountRecord) : BaseAccount :=
  { currency := s.currency
    accountNumber := s.id
    name := s.name
    description := s.description
    baseTransactionType := s.baseTransactionType
    balance := s.balance
    coa := s.coa
    createTime := s.createTime
    createBy := s.createBy
    updateTime := s.updateTime
    updateBy := s.updateBy }

/-- `InMemoryAccountManager.ListAccounts`: all account rows, sorted stably by
creation time, paged. -/
def ListAccounts (db : DB) (request : PageRequest) : PageResult × List BaseAccount :=
  let resultSlice := db.accounts.map (fun p => p.2)
  let sorted := sortStable (fun a b => decide (a.createTime < b.createTime)) resultSlice
  let pageResult := PageResultFor request resultSlice.length
  (pageResult, ((sorted.drop pageResult.Offset).take pageResult.PageSize).map toBaseAccount)

/-- `InMemoryTransactionManager.ListTransactionsOnAccount`.  Note what the
source actually does: it filters only by account number (the `fromTime` and
`untilTime` arguments are never consulted), sorts by creation time, computes
page metadata — and then copies out ALL matching rows
(`make([]Transaction, len(resultRecord))`, loop over `resultRecord`), not
just the requested page's slice. -/
def ListTransactionsOnAccount (db : DB) (fromTime untilTime : Nat) (accountNumber : String)
    (request : PageRequest) : PageResult × List BaseTransaction :=
  let resultRecord := (db.transactions.map (fun p => p.2)).filter
    (fun t => t.accountNumber == accountNumber)
  let sorted := sortStable (fun a b => decide (a.createTime < b.createTime)) resultRecord
  let pageResult := PageResultFor request resultRecord.length
  (pageResult, sorted.map toBaseTransaction)

/-- The caller-supplied `Account` value as read through the `Account`
interface getters by `PersistAccount` / `UpdateAccount`. -/
structure AccountInput where
  currency : String
  accountNumber : String
  name : String
  description : String
  baseTransactionType : TransactionType
  balance : Int
  coa : String
  createBy : String
  updateBy : String
  deriving DecidableEq, Repr

/-- `InMemoryAccountManager.PersistAccount`. -/
def PersistAccount (db : DB) (now : Nat) (a : AccountInput) : Option Err × DB :=
  if a.accountNumber.length = 0 then (some Err.accountMissingID, db)
  else if a.name.length = 0 then (some Err.accountMissingName, db)
  else if a.description.length = 0 then (some Err.accountMissingDescription, db)
  else if a.createBy.length = 0 then (some Err.accountMissingCreator, db)
  else if (lookupRec db.accounts a.accountNumber).isSome then
    (some Err.accountAlreadyPersisted, db)
  else
    let accountRecord : InMemoryAccountRecord :=
      { currency := a.currency
        id := a.accountNumber
        name := a.name
        description := a.description
        baseTransactionType := a.baseTransactionType
        balance := a.balance
        coa := a.coa
        createTime := now
        createBy := a.createBy
        updateTime := now
        updateBy := a.updateBy }
    (none, { db with accounts := setRec db.accounts a.accountNumber accountRecord })

/-- `InMemoryAccountManager.UpdateAccount`: same structural checks, requires
the account to exist, then stores a freshly-built record — every field,
including `balance`, comes from the caller, and `createTime`/`updateTime`
are both set to `time.Now()`. -/
def UpdateAccount (db : DB) (now : Nat) (a : AccountInput) : Option Err × DB :=
  if a.accountNumber.length = 0 then (some Err.accountMissingID, db)
  else if a.name.length = 0 then (some Err.accountMissingName, db)
  else if a.description.length = 0 then (some Err.accountMissingDescription, db)
  else if a.createBy.length = 0 then (some Err.accountMissingCreator, db)
  else if !(lookupRec db.accounts a.accountNumber).isSome then
    (some Err.accountIsNotPersisted, db)
  else
    let accountRecord : InMemoryAccountRecord :=
      { currency := a.currency
        id := a.accountNumber
        name := a.name
        description := a.description
        baseTransactionType := a.baseTransactionType
        balance := a.balance
        coa := a.coa
        createTime := now
        createBy := a.createBy
        updateTime := now
        updateBy := a.updateBy }
    (none, { db with accounts := setRec db.accounts a.accountNumber accountRecord })


/-- Concrete fixture: a DEBIT-based account `A1` with balance 0 (the spec's
testable scenario in section 8). -/
def acctD : InMemoryAccountRecord :=
  { currency := "C", id := "A1", name := "a", description := "d", baseTransactionType := DEBIT,
    balance := 0, coa := "1", createTime := 0, createBy := "u", updateTime := 0, updateBy := "u" }

/-- Concrete fixture: a CREDIT-based account `A2` with balance 0. -/
def acctC : InMemoryAccountRecord :=
  { acctD with id := "A2", baseTransactionType := CREDIT, createTime := 1 }

/-- Concrete fixture: store holding only the two accounts. -/
def dbTwoAccounts : DB :=
  { journals := [], accounts := [("A1", acctD), ("A2", acctC)], transactions := [] }

/-- Concrete fixture: DEBIT 100 on `A1`. -/
def trxD100 : TransactionInput :=
  { transactionId := "T1", accountNumber := "A1", description := "t", transactionType := DEBIT,
    amount := 100, createBy := "u" }

/-- Concrete fixture: CREDIT 100 on `A2`. -/
def trxC100 : TransactionInput :=
  { trxD100 with transactionId := "T2", accountNumber := "A2", transactionType := CREDIT }

/-- Concrete fixture: balanced journal `J1` posting DEBIT 100 on `A1` and
CREDIT 100 on `A2`. -/
def jrnJ1 : JournalInput :=
  { journalId := "J1", description := "j", createBy := "u", reversedJournalId := none,
    transactions := [trxD100, trxC100] }

/-- Concrete fixture: the store after successfully persisting `J1` at time 2. -/
def dbWithJ1 : DB := (PersistJournal dbTwoAccounts 2 (some jrnJ1)).2

/-- Concrete fixture: journal `J2`, a well-formed reversal of the persisted
`J1` (CREDIT 100 on `A1`, DEBIT 100 on `A2`), which the spec's section-8
scenario expects to persist successfully. -/
def jrnJ2rev : JournalInput :=
  { journalId := "J2", description := "r", createBy := "u", reversedJournalId := some "J1",
    transactions := [{ trxD100 with transactionId := "T3", transactionType := CREDIT },
                     { trxC100 with transactionId := "T4", transactionType := DEBIT }] }

/-- Concrete fixture: a journal whose ID `J1` is already persisted but which
also carries no transactions. -/
def jrnJ1Empty : JournalInput :=
  { journalId := "J1", description := "x", createBy := "u", reversedJournalId := none,
    transactions := [] }

/-- Concrete fixture: an unbalanced journal (DEBIT 70 vs CREDIT 100). -/
def jrnUnbalanced : JournalInput :=
  { journalId := "J5", description := "u", createBy := "u", reversedJournalId := none,
    transactions := [{ trxD100 with transactionId := "T5", amount := 70 }, { trxC100 with transactionId := "T6" }] }

/-- Concrete fixture: a second balanced journal `J3` on fresh transaction IDs. -/
def jrnJ3 : JournalInput :=
  { journalId := "J3", description := "k", createBy := "u", reversedJournalId := none,
    transactions := [{ trxD100 with transactionId := "T7", amount := 40 },
                     { trxC100 with transactionId := "T8", amount := 40 }] }

/-- Concrete fixture: a journal whose two transactions both carry the
transaction type 7, which is neither DEBIT (0) nor CREDIT (1). -/
def jrnTypeSeven : JournalInput :=
  { journalId := "J7", description := "w", createBy := "u", reversedJournalId := none,
    transactions := [{ trxD100 with transactionId := "TA", transactionType := 7, amount := 30 },
                     { trxC100 with transactionId := "TB", transactionType := 7, amount := 30 }] }

/-- Concrete fixture: a stored transaction row on `A1` at time 10. -/
def trxRecEarly : InMemoryTransactionRecords :=
  { transactionId := "T1", transactionTime := 10, accountNumber := "A1", journalId := "J1",
    description := "t", transactionType := DEBIT, amount := 5, accountBalance := 5,
    createTime := 10, createBy := "u" }

/-- Concrete fixture: a stored transaction row on `A1` at time 99. -/
def trxRecLate : InMemoryTransactionRecords :=
  { trxRecEarly with transactionId := "T9", transactionTime := 99, journalId := "J9", createTime := 99 }

/-- Concrete fixture: store with two transaction rows on account `A1`, one
at time 10 and one at time 99. -/
def dbTwoTransactions : DB :=
  { journals := [], accounts := [], transactions := [("T1", trxRecEarly), ("T9", trxRecLate)] }

/-- Concrete fixture: a caller-supplied update for account `A1` carrying
balance 42 and new name/updater. -/
def updA1 : AccountInput :=
  { currency := "C", accountNumber := "A1", name := "n", description := "d",
    baseTransactionType := DEBIT, balance := 42, coa := "1", createBy := "u", updateBy := "v" }

/-- Concrete fixture: the journal row that persisting `J1` at time 2 stores. -/
def jrnJ1Row : InMemoryJournalRecords :=
  { journalId := "J1", journalingTime := 2, description := "j", reversal := false,
    reversedJournalId := "", amount := 100, createTime := 2, createBy := "u" }

/-- Concrete fixture: the transaction row that persisting `J1` at time 2
stores for `T1`. -/
def trxT1Row : InMemoryTransactionRecords :=
  { transactionId := "T1", transactionTime := 2, accountNumber := "A1", journalId := "J1",
    description := "t", transactionType := DEBIT, amount := 100, accountBalance := 100,
    createTime := 2, createBy := "u" }

/-! ### Lemmas about the association-list store operations -/

theorem lookupRec_setRec_self {α : Type} (l : List (String × α)) (k : String) (v : α) :
    lookupRec (setRec l k v) k = some v := by
  induction l with
  | nil => simp [setRec, lookupRec]
  | cons p rest ih =>
    by_cases h : p.1 = k
    · simp [setRec, h, lookupRec]
    · simp [setRec, h, lookupRec, ih]

theorem lookupRec_setRec_ne {α : Type} (l : List (String × α)) (k k' : String) (v : α)
    (h : k' ≠ k) : lookupRec (setRec l k v) k' = lookupRec l k' := by
  have hk : ¬ (k = k') := fun hh => h hh.symm
  induction l with
  | nil => simp [setRec, lookupRec, hk]
  | cons p rest ih =>
    by_cases hp : p.1 = k
    · have hp' : ¬ (p.1 = k') := by rw [hp]; exact hk
      simp [setRec, hp, lookupRec, hk, hp']
    · by_cases hq : p.1 = k'
      · simp [setRec, hp, lookupRec, hq, hk, h]
      · simp [setRec, hp, lookupRec, hq, hk, ih]

theorem lookupRec_updateRec_self {α : Type} (l : List (String × α)) (k : String) (f : α → α) :
    lookupRec (updateRec l k f) k = (lookupRec l k).map f := by
  induction l with
  | nil => simp [updateRec, lookupRec]
  | cons p rest ih =>
    by_cases h : p.1 = k
    · simp [updateRec, h, lookupRec]
    · simp [updateRec, h, lookupRec, ih]

theorem lookupRec_updateRec_ne {α : Type} (l : List (String × α)) (k k' : String) (f : α → α)
    (h : k' ≠ k) : lookupRec (updateRec l k f) k' = lookupRec l k' := by
  have hk : ¬ (k = k') := fun hh => h hh.symm
  induction l with
  | nil => simp [updateRec, lookupRec]
  | cons p rest ih =>
    by_cases hp : p.1 = k
    · have hp' : ¬ (p.1 = k') := by rw [hp]; exact hk
      simp [updateRec, hp, lookupRec, hk, hp']
    · by_cases hq : p.1 = k'
      · simp [updateRec, hp, lookupRec, hq, hk, h]
      · simp [updateRec, hp, lookupRec, hq, hk, ih]

theorem lookupRec_some_mem {α : Type} (l : List (String × α)) (k : String) (v : α)
    (h : lookupRec l k = some v) : (k, v) ∈ l := by
  induction l with
  | nil => simp [lookupRec] at h
  | cons p rest ih =>
    by_cases hp : p.1 = k
    · simp [lookupRec, hp] at h
      apply List.mem_cons.mpr
      left
      cases p
      simp_all
    · simp [lookupRec, hp] at h
      exact List.mem_cons_of_mem _ (ih h)

theorem lookupRec_isSome_of_mem {α : Type} (l : List (String × α)) (p : String × α)
    (h : p ∈ l) : (lookupRec l p.1).isSome = true := by
  induction l with
  | nil => simp at h
  | cons q rest ih =>
    rcases List.mem_cons.mp h with h1 | h2
    · subst h1
      simp [lookupRec]
    · by_cases hq : q.1 = p.1
      · simp [lookupRec, hq]
      · simp [lookupRec, hq, ih h2]


/-! ### Helper lemmas about the engine -/

/-- Every error return of `PersistJournal` happens before the write phase,
so it carries the tables unchanged. -/
theorem persistJournal_error_frame (db : DB) (now : Nat) (jrn : Option JournalInput)
    (h : ((PersistJournal db now jrn).1).isSome = true) :
    (PersistJournal db now jrn).2 = db := by
  revert h
  unfold PersistJournal
  repeat' split
  all_goals intro h
  all_goals first
    | rfl
    | simp at h

/-- The transaction write loop never touches the journal table. -/
theorem applyTransaction_journals (db : DB) (now : Nat) (jid : String) (t : TransactionInput) :
    (applyTransaction db now jid t).journals = db.journals := rfl

/-- Folding the transaction write loop never touches the journal table. -/
theorem foldApply_journals (now : Nat) (jid : String) :
    ∀ (ts : List TransactionInput) (acc : DB),
      (ts.foldl (fun acc t => applyTransaction acc now jid t) acc).journals = acc.journals := by
  intro ts
  induction ts with
  | nil => intro acc; rfl
  | cons t rest ih =>
    intro acc
    simpa [List.foldl_cons, applyTransaction_journals] using ih (applyTransaction acc now jid t)

/-- Transaction rows whose IDs are touched by none of the loop's
transactions survive the write loop unchanged. -/
theorem foldApply_transactions_frame (now : Nat) (jid : String) (k : String)
    (r : InMemoryTransactionRecords) :
    ∀ (ts : List TransactionInput) (acc : DB),
      (∀ t ∈ ts, t.transactionId ≠ k) →
      lookupRec acc.transactions k = some r →
      lookupRec ((ts.foldl (fun acc t => applyTransaction acc now jid t) acc)).transactions k = some r := by
  intro ts
  induction ts with
  | nil => intro acc _ hl; exact hl
  | cons t rest ih =>
    intro acc hne hl
    apply ih (applyTransaction acc now jid t) (fun t' ht' => hne t' (List.mem_cons_of_mem _ ht'))
    show lookupRec (setRec acc.transactions t.transactionId _) k = some r
    rw [lookupRec_setRec_ne _ _ _ _ (fun hk => hne t (List.mem_cons_self _ _) hk.symm)]
    exact hl

/-- Accounts touched by none of the loop's transactions survive the write
loop unchanged. -/
theorem foldApply_accounts_frame (now : Nat) (jid : String) (k : String) :
    ∀ (ts : List TransactionInput) (acc : DB),
      (∀ t ∈ ts, t.accountNumber ≠ k) →
      lookupRec ((ts.foldl (fun acc t => applyTransaction acc now jid t) acc)).accounts k =
        lookupRec acc.accounts k := by
  intro ts
  induction ts with
  | nil => intro acc _; rfl
  | cons t rest ih =>
    intro acc hne
    rw [List.foldl_cons, ih (applyTransaction acc now jid t) (fun t' ht' => hne t' (List.mem_cons_of_mem _ ht'))]
    show lookupRec (updateRec acc.accounts t.accountNumber _) k = _
    exact lookupRec_updateRec_ne _ _ _ _ (fun hk => hne t (List.mem_cons_self _ _) hk.symm)

/-! ### Lemmas about the stable sort -/

theorem length_insertOrdered {α : Type} (lt : α → α → Bool) (x : α) :
    ∀ l : List α, (insertOrdered lt x l).length = l.length + 1 := by
  intro l
  induction l with
  | nil => rfl
  | cons y ys ih =>
    by_cases h : lt x y
    · simp [insertOrdered, h]
    · simp [insertOrdered, h, ih]

theorem length_sortStable {α : Type} (lt : α → α → Bool) (l : List α) :
    (sortStable lt l).length = l.length := by
  suffices h : ∀ (l : List α) (acc : List α),
      (l.foldl (fun acc x => insertOrdered lt x acc) acc).length = acc.length + l.length by
    simpa using h l []
  intro l
  induction l with
  | nil => intro acc; simp
  | cons x xs ih =>
    intro acc
    rw [List.foldl_cons, ih, length_insertOrdered, List.length_cons]
    omega

theorem mem_insertOrdered {α : Type} (lt : α → α → Bool) (x y : α) :
    ∀ l : List α, y ∈ insertOrdered lt x l ↔ y = x ∨ y ∈ l := by
  intro l
  induction l with
  | nil => simp [insertOrdered]
  | cons z zs ih =>
    by_cases h : lt x z <;> simp [insertOrdered, h, ih] <;> tauto

theorem mem_sortStable {α : Type} (lt : α → α → Bool) (l : List α) (y : α) :
    y ∈ sortStable lt l ↔ y ∈ l := by
  suffices h : ∀ (l acc : List α),
      (y ∈ l.foldl (fun acc x => insertOrdered lt x acc) acc ↔ y ∈ acc ∨ y ∈ l) by
    simpa using h l []
  intro l
  induction l with
  | nil => intro acc; simp
  | cons x xs ih =>
    intro acc
    rw [List.foldl_cons, ih, mem_insertOrdered]
    simp only [List.mem_cons]
    tauto

/-! ### Lemmas about journal loading -/

/-- Loading a journal whose stored record is not flagged as a reversal
always succeeds, returning a journal carrying the record's ID. -/
theorem getJournalById_ok (db : DB) (fuel : Nat) (k : String) (v : InMemoryJournalRecords)
    (hl : lookupRec db.journals k = some v) (hrev : v.reversal = false) :
    GetJournalById db (fuel + 1) k =
      Except.ok (BaseJournal.mk v.journalId v.journalingTime v.description v.reversal none
        v.amount (transactionsOfJournal db v.journalId) v.createTime v.createBy) := by
  unfold GetJournalById
  rw [hl]
  simp [hrev]

/-- If every record in the list has a stored, non-reversal journal under its
own ID, the `ListJournals` result loop succeeds and returns one journal per
record, carrying the records' IDs in order. -/
theorem collectJournals_ok (db : DB) (fuel : Nat)
    (hwf : ∀ p ∈ db.journals, p.1 = p.2.journalId)
    (hrev : ∀ p ∈ db.journals, p.2.reversal = false) :
    ∀ rs : List InMemoryJournalRecords,
      (∀ r ∈ rs, (lookupRec db.journals r.journalId).isSome = true) →
      ∃ js, collectJournals db (fuel + 1) rs = Except.ok js ∧
        js.map BaseJournal.journalID = rs.map (fun r => r.journalId) := by
  intro rs
  induction rs with
  | nil => intro _; exact ⟨[], rfl, rfl⟩
  | cons r rest ih =>
    intro hall
    obtain ⟨v, hv⟩ := Option.isSome_iff_exists.mp (hall r (List.mem_cons_self _ _))
    have hmem : (r.journalId, v) ∈ db.journals := lookupRec_some_mem _ _ _ hv
    have hvid : v.journalId = r.journalId := (hwf _ hmem).symm
    have hvrev : v.reversal = false := hrev _ hmem
    obtain ⟨js, hjs, hids⟩ := ih (fun r' hr' => hall r' (List.mem_cons_of_mem _ hr'))
    refine ⟨BaseJournal.mk v.journalId v.journalingTime v.description v.reversal none
      v.amount (transactionsOfJournal db v.journalId) v.createTime v.createBy :: js, ?_, ?_⟩
    · unfold collectJournals
      rw [getJournalById_ok db fuel r.journalId v hv hvrev, hjs]
    · simp [BaseJournal.journalID, hvid, hids]

/-- When the queried ID is not in the journal table, `IsJournalIdReversed`
returns `ErrJournalIdNotFound`. -/
theorem isJournalIdReversed_notFound (db : DB) (k : String)
    (h : (lookupRec db.journals k).isSome = false) :
    IsJournalIdReversed db k = Except.error Err.journalIdNotFound := by
  have hn : lookupRec db.journals k = none := by
    cases hcase : lookupRec db.journals k with
    | none => rfl
    | some v => rw [hcase] at h; simp at h
  unfold IsJournalIdReversed
  rw [hn]

/-- Facts recoverable from a fully successful validation chain. -/
theorem validateJournal_none_facts (db : DB) (j : JournalInput)
    (h : validateJournal db j = none) :
    creditSum j.transactions = debitSum j.transactions ∧
    (lookupRec db.journals j.journalId).isSome = false ∧
    (∀ t ∈ j.transactions, (lookupRec db.transactions t.transactionId).isSome = false) := by
  unfold validateJournal at h
  repeat' split at h
  all_goals simp_all

/-- A successful validation chain implies the journal was not marked as a
reversal: with the journal's own ID still absent from the table (checked in
step 2), step 9's `IsJournalIdReversed(journalToPersist.GetJournalID())`
errors, so the reversal branch can never validate. -/
theorem validateJournal_none_no_reversal (db : DB) (j : JournalInput)
    (h : validateJournal db j = none) : j.reversedJournalId = none := by
  have hlook : (lookupRec db.journals j.journalId).isSome = false :=
    (validateJournal_none_facts db j h).2.1
  have herr : IsJournalIdReversed db j.journalId = Except.error Err.journalIdNotFound :=
    isJournalIdReversed_notFound db _ hlook
  unfold validateJournal at h
  repeat' split at h
  all_goals simp_all

/-- The journal row written by a successful persist, as found in the
resulting journal table. -/
theorem doPersist_journal_row (db : DB) (now : Nat) (j : JournalInput) :
    lookupRec (doPersist db now j).journals j.journalId =
      some { journalId := j.journalId, journalingTime := now, description := j.description,
             reversal := j.reversedJournalId.isSome,
             reversedJournalId := j.reversedJournalId.getD "",
             amount := creditSum j.transactions, createTime := now, createBy := j.createBy } := by
  unfold doPersist
  rw [foldApply_journals]
  exact lookupRec_setRec_self _ _ _

/-- Reduction of `PersistJournal` on a non-nil journal failing validation. -/
theorem persistJournal_some_err (db : DB) (now : Nat) (j : JournalInput) (e : Err)
    (hv : validateJournal db j = some e) :
    PersistJournal db now (some j) = (some e, db) := by
  show (match validateJournal db j with
        | some e => (some e, db)
        | none => (none, doPersist db now j)) = _
  rw [hv]

/-- Reduction of `PersistJournal` on a non-nil journal passing validation. -/
theorem persistJournal_some_ok (db : DB) (now : Nat) (j : JournalInput)
    (hv : validateJournal db j = none) :
    PersistJournal db now (some j) = (none, doPersist db now j) := by
  show (match validateJournal db j with
        | some e => (some e, db)
        | none => (none, doPersist db now j)) = _
  rw [hv]

/-! ### Claims -/

/-- C1: contrary to the claim, a journal that declares itself a reversal can
NEVER be persisted: step 9 queries `IsJournalIdReversed` with the NEW
journal's own ID (not the reversal target's), and that ID is guaranteed
absent from the journal table by step 2, so the query errors with
`ErrJournalIdNotFound` and `PersistJournal` always fails. -/
theorem claim1_reversal_persist_always_fails (db : DB) (now : Nat) (j : JournalInput)
    (h : j.reversedJournalId.isSome = true) :
    ((PersistJournal db now (some j)).1).isSome = true := by
  unfold PersistJournal
  cases hv : validateJournal db j with
  | some e => simp [hv]
  | none => simp [validateJournal_none_no_reversal db j hv] at h

/-- C1 witness: the spec's own section-8 scenario — a well-formed reversal
`J2` of the persisted journal `J1`, which the spec expects to succeed —
fails, with `ErrJournalIdNotFound`. -/
theorem claim1_reversal_persist_always_fails_witness :
    jrnJ2rev.reversedJournalId.isSome = true ∧
    ((PersistJournal dbWithJ1 3 (some jrnJ2rev)).1).isSome = true ∧
    (PersistJournal dbWithJ1 3 (some jrnJ2rev)).1 = some Err.journalIdNotFound :=
  ⟨rfl, claim1_reversal_persist_always_fails dbWithJ1 3 jrnJ2rev rfl, by decide⟩

/-- C2: whenever `PersistJournal` returns an error, the journal table, the
transaction table, and the account table are identical by value to their
state before the call. -/
theorem claim2_persist_error_no_mutation (db : DB) (now : Nat) (jrn : Option JournalInput)
    (h : ((PersistJournal db now jrn).1).isSome = true) :
    ((PersistJournal db now jrn).2).journals = db.journals ∧
    ((PersistJournal db now jrn).2).accounts = db.accounts ∧
    ((PersistJournal db now jrn).2).transactions = db.transactions := by
  rw [persistJournal_error_frame db now jrn h]
  exact ⟨rfl, rfl, rfl⟩

/-- C2 witness: a rejected journal (unbalanced `J5`) leaves the store
unchanged. -/
theorem claim2_persist_error_no_mutation_witness :
    ((PersistJournal dbTwoAccounts 0 (some jrnUnbalanced)).1).isSome = true ∧
    (((PersistJournal dbTwoAccounts 0 (some jrnUnbalanced)).2).journals = dbTwoAccounts.journals ∧
     ((PersistJournal dbTwoAccounts 0 (some jrnUnbalanced)).2).accounts = dbTwoAccounts.accounts ∧
     ((PersistJournal dbTwoAccounts 0 (some jrnUnbalanced)).2).transactions = dbTwoAccounts.transactions) :=
  ⟨by decide, claim2_persist_error_no_mutation dbTwoAccounts 0 (some jrnUnbalanced) (by decide)⟩

/-- C3: for a posting written by the persist loop on an account with base
direction `b` and pre-posting balance `bal`, the stored transaction row
carries the snapshot `bal + amount` when the posting's direction equals `b`
and `bal - amount` otherwise, and the account's stored balance becomes that
same value. -/
theorem claim3_balance_propagation (db : DB) (now : Nat) (jid : String) (t : TransactionInput)
    (a : InMemoryAccountRecord) (h : lookupRec db.accounts t.accountNumber = some a) :
    lookupRec ((applyTransaction db now jid t)).transactions t.transactionId =
      some { transactionId := t.transactionId, transactionTime := now,
             accountNumber := t.accountNumber, journalId := jid, description := t.description,
             transactionType := t.transactionType, amount := t.amount,
             accountBalance := if t.transactionType = a.baseTransactionType
               then a.balance + t.amount else a.balance - t.amount,
             createTime := now, createBy := t.createBy } ∧
    lookupRec ((applyTransaction db now jid t)).accounts t.accountNumber =
      some { a with
             balance := if t.transactionType = a.baseTransactionType
               then a.balance + t.amount else a.balance - t.amount,
             updateTime := now, updateBy := t.createBy } := by
  unfold applyTransaction
  constructor
  · simp [h, lookupRec_setRec_self]
  · simp [h, lookupRec_updateRec_self]

/-- C3 witness: the DEBIT 100 posting on the DEBIT-based account `A1` with
balance 0 stores snapshot 100 and sets the account balance to 100. -/
theorem claim3_balance_propagation_witness :
    lookupRec dbTwoAccounts.accounts trxD100.accountNumber = some acctD ∧
    (lookupRec ((applyTransaction dbTwoAccounts 2 "J1" trxD100)).transactions trxD100.transactionId =
      some { transactionId := trxD100.transactionId, transactionTime := 2,
             accountNumber := trxD100.accountNumber, journalId := "J1",
             description := trxD100.description,
             transactionType := trxD100.transactionType, amount := trxD100.amount,
             accountBalance := if trxD100.transactionType = acctD.baseTransactionType
               then acctD.balance + trxD100.amount else acctD.balance - trxD100.amount,
             createTime := 2, createBy := trxD100.createBy } ∧
    lookupRec ((applyTransaction dbTwoAccounts 2 "J1" trxD100)).accounts trxD100.accountNumber =
      some { acctD with
             balance := if trxD100.transactionType = acctD.baseTransactionType
               then acctD.balance + trxD100.amount else acctD.balance - trxD100.amount,
             updateTime := 2, updateBy := trxD100.createBy }) :=
  ⟨by decide, claim3_balance_propagation dbTwoAccounts 2 "J1" trxD100 acctD (by decide)⟩

/-- C6 (as amended): persisting a journal whose ID is already present always
fails and performs no mutation; the error is `ErrJournalAlreadyPersisted`
whenever the journal also passes the structural checks that precede the ID
check (non-empty ID, at least one transaction, non-empty creator). -/
theorem claim6_persist_existing_id (db : DB) (now : Nat) (j : JournalInput)
    (h : (lookupRec db.journals j.journalId).isSome = true) :
    ((PersistJournal db now (some j)).1).isSome = true ∧
    (PersistJournal db now (some j)).2 = db ∧
    (j.journalId.length ≠ 0 → j.transactions.length ≠ 0 → j.createBy.length ≠ 0 →
      (PersistJournal db now (some j)).1 = some Err.journalAlreadyPersisted) := by
  have hfail : ((PersistJournal db now (some j)).1).isSome = true := by
    unfold PersistJournal validateJournal
    by_cases h1 : j.journalId.length = 0
    · simp [h1]
    · by_cases h2 : j.transactions.length = 0
      · simp [h1, h2]
      · by_cases h3 : j.createBy.length = 0
        · simp [h1, h2, h3]
        · simp [h1, h2, h3, h]
  refine ⟨hfail, persistJournal_error_frame db now (some j) hfail, ?_⟩
  intro h1 h2 h3
  unfold PersistJournal validateJournal
  simp [h1, h2, h3, h]

/-- C6 witness: re-persisting the already-persisted, structurally complete
journal `J1` fails with exactly `ErrJournalAlreadyPersisted` and leaves the
store unchanged. -/
theorem claim6_persist_existing_id_witness :
    (lookupRec dbWithJ1.journals jrnJ1.journalId).isSome = true ∧
    ((PersistJournal dbWithJ1 4 (some jrnJ1)).1).isSome = true ∧
    (PersistJournal dbWithJ1 4 (some jrnJ1)).2 = dbWithJ1 ∧
    (PersistJournal dbWithJ1 4 (some jrnJ1)).1 = some Err.journalAlreadyPersisted := by
  have h : (lookupRec dbWithJ1.journals jrnJ1.journalId).isSome = true := by decide
  have main := claim6_persist_existing_id dbWithJ1 4 jrnJ1 h
  exact ⟨h, main.1, main.2.1, main.2.2 (by decide) (by decide) (by decide)⟩

/-- C6 counterexample to the claim as stated: a journal whose ID `J1` is
already persisted but which carries no transactions is rejected with
`ErrJournalNoTransaction`, not `ErrJournalAlreadyPersisted` (the structural
checks run first). -/
theorem claim6_counterexample :
    PersistJournal dbWithJ1 4 (some jrnJ1Empty) = (some Err.journalNoTransaction, dbWithJ1) ∧
    Err.journalNoTransaction ≠ Err.journalAlreadyPersisted :=
  ⟨by decide, by decide⟩

/-- C9: a journal all of whose transactions carry a `TransactionType` other
than DEBIT (0) and CREDIT (1) passes the balance check with both sums 0,
and each such transaction still moves its account's balance during
propagation — down by the amount whenever its type differs from the
account's base type. -/
theorem claim9_unconstrained_transaction_type :
    (∀ ts : List TransactionInput,
       (∀ t ∈ ts, t.transactionType ≠ DEBIT ∧ t.transactionType ≠ CREDIT) →
       debitSum ts = 0 ∧ creditSum ts = 0) ∧
    (∀ (db : DB) (now : Nat) (jid : String) (t : TransactionInput) (a : InMemoryAccountRecord),
       lookupRec db.accounts t.accountNumber = some a →
       t.transactionType ≠ a.baseTransactionType →
       lookupRec ((applyTransaction db now jid t)).accounts t.accountNumber =
         some { a with balance := a.balance - t.amount, updateTime := now, updateBy := t.createBy }) := by
  constructor
  · intro ts h
    induction ts with
    | nil => exact ⟨rfl, rfl⟩
    | cons t rest ih =>
      have ht := h t (List.mem_cons_self _ _)
      have hrest := ih (fun t' ht' => h t' (List.mem_cons_of_mem _ ht'))
      constructor
      · simp [debitSum, ht.1, hrest.1]
      · simp [creditSum, ht.2, hrest.2]
  · intro db now jid t a hl hne
    unfold applyTransaction
    simp [hl, hne, lookupRec_updateRec_self]

/-- C9 witness: the type-7 journal's transactions sum to 0 on both sides,
and its type-7 posting of 30 on the DEBIT-based account `A1` (balance 0)
drives the balance to -30. -/
theorem claim9_unconstrained_transaction_type_witness :
    (debitSum jrnTypeSeven.transactions = 0 ∧ creditSum jrnTypeSeven.transactions = 0) ∧
    lookupRec ((applyTransaction dbTwoAccounts 5 "J7"
        { trxD100 with transactionId := "TA", transactionType := 7, amount := 30 })).accounts "A1" =
      some { acctD with balance := acctD.balance - 30, updateTime := 5, updateBy := "u" } :=
  ⟨claim9_unconstrained_transaction_type.1 jrnTypeSeven.transactions (by decide),
   claim9_unconstrained_transaction_type.2 dbTwoAccounts 5 "J7"
     { trxD100 with transactionId := "TA", transactionType := 7, amount := 30 } acctD
     (by decide) (by decide)⟩

/-- C10: a successful `UpdateAccount` replaces the stored account record
wholesale with the caller-supplied values — the stored balance becomes the
caller's balance, and the stored creation time is reset to the current time
rather than preserved from the existing record. -/
theorem claim10_updateAccount_replaces (db : DB) (now : Nat) (a : AccountInput)
    (r : InMemoryAccountRecord)
    (h1 : a.accountNumber.length ≠ 0) (h2 : a.name.length ≠ 0) (h3 : a.description.length ≠ 0)
    (h4 : a.createBy.length ≠ 0) (h5 : lookupRec db.accounts a.accountNumber = some r) :
    (UpdateAccount db now a).1 = none ∧
    lookupRec ((UpdateAccount db now a).2).accounts a.accountNumber =
      some { currency := a.currency, id := a.accountNumber, name := a.name,
             description := a.description, baseTransactionType := a.baseTransactionType,
             balance := a.balance, coa := a.coa, createTime := now, createBy := a.createBy,
             updateTime := now, updateBy := a.updateBy } := by
  have hs : (lookupRec db.accounts a.accountNumber).isSome = true := by rw [h5]; rfl
  unfold UpdateAccount
  simp [h1, h2, h3, h4, hs, lookupRec_setRec_self]

/-- C10 witness: updating the existing account `A1` (balance 0, created at
time 0) with caller balance 42 at time 9 stores balance 42 and creation
time 9. -/
theorem claim10_updateAccount_replaces_witness :
    lookupRec dbTwoAccounts.accounts updA1.accountNumber = some acctD ∧
    ((UpdateAccount dbTwoAccounts 9 updA1).1 = none ∧
     lookupRec ((UpdateAccount dbTwoAccounts 9 updA1).2).accounts updA1.accountNumber =
       some { currency := updA1.currency, id := updA1.accountNumber, name := updA1.name,
              description := updA1.description, baseTransactionType := updA1.baseTransactionType,
              balance := updA1.balance, coa := updA1.coa, createTime := 9,
              createBy := updA1.createBy, updateTime := 9, updateBy := updA1.updateBy }) :=
  ⟨by decide, claim10_updateAccount_replaces dbTwoAccounts 9 updA1 acctD
    (by decide) (by decide) (by decide) (by decide) (by decide)⟩

/-- C4: a successfully persisted journal has equal debit and credit sums and
its stored row's `amount` is that common sum; and a journal that reaches the
balance check with unequal sums is rejected with `ErrJournalNotBalance`. -/
theorem claim4_conservation :
    (∀ (db : DB) (now : Nat) (j : JournalInput),
       (PersistJournal db now (some j)).1 = none →
       debitSum j.transactions = creditSum j.transactions ∧
       lookupRec ((PersistJournal db now (some j)).2).journals j.journalId =
         some { journalId := j.journalId, journalingTime := now, description := j.description,
                reversal := j.reversedJournalId.isSome,
                reversedJournalId := j.reversedJournalId.getD "",
                amount := creditSum j.transactions, createTime := now, createBy := j.createBy }) ∧
    (∀ (db : DB) (now : Nat) (j : JournalInput),
       j.journalId.length ≠ 0 → j.transactions.length ≠ 0 → j.createBy.length ≠ 0 →
       (lookupRec db.journals j.journalId).isSome = false →
       j.transactions.any (fun t => t.transactionId.length == 0) = false →
       j.transactions.any (fun t => (lookupRec db.transactions t.transactionId).isSome) = false →
       creditSum j.transactions ≠ debitSum j.transactions →
       (PersistJournal db now (some j)).1 = some Err.journalNotBalance) := by
  constructor
  · intro db now j h
    cases hv : validateJournal db j with
    | some e => rw [persistJournal_some_err db now j e hv] at h; simp at h
    | none =>
      rw [persistJournal_some_ok db now j hv]
      exact ⟨(validateJournal_none_facts db j hv).1.symm, doPersist_journal_row db now j⟩
  · intro db now j h1 h2 h3 h4 h5 h6 hne
    unfold PersistJournal validateJournal
    simp [h1, h2, h3, h4, h5, h6, hne]

/-- C4 witness: the balanced journal `J1` persists with debit sum = credit
sum = 100 recorded as the row amount, and the unbalanced journal `J5`
(DEBIT 70 vs CREDIT 100) is rejected with `ErrJournalNotBalance`. -/
theorem claim4_conservation_witness :
    ((PersistJournal dbTwoAccounts 2 (some jrnJ1)).1 = none ∧
     (debitSum jrnJ1.transactions = creditSum jrnJ1.transactions ∧
      lookupRec ((PersistJournal dbTwoAccounts 2 (some jrnJ1)).2).journals jrnJ1.journalId =
        some { journalId := jrnJ1.journalId, journalingTime := 2, description := jrnJ1.description,
               reversal := jrnJ1.reversedJournalId.isSome,
               reversedJournalId := jrnJ1.reversedJournalId.getD "",
               amount := creditSum jrnJ1.transactions, createTime := 2,
               createBy := jrnJ1.createBy })) ∧
    (creditSum jrnUnbalanced.transactions ≠ debitSum jrnUnbalanced.transactions ∧
     (PersistJournal dbTwoAccounts 0 (some jrnUnbalanced)).1 = some Err.journalNotBalance) :=
  ⟨⟨by decide, claim4_conservation.1 dbTwoAccounts 2 jrnJ1 (by decide)⟩,
   ⟨by decide, claim4_conservation.2 dbTwoAccounts 0 jrnUnbalanced (by decide) (by decide)
     (by decide) (by decide) (by decide) (by decide) (by decide)⟩⟩

/-- C5: no operation of the managers ever modifies or removes a stored
journal or transaction row: `PersistJournal` preserves every pre-existing
row of both tables (it inserts only under IDs it verified absent), and the
account operations never touch the journal or transaction tables at all. -/
theorem claim5_persisted_rows_immutable (db : DB) (now : Nat) (jrn : Option JournalInput)
    (a : AccountInput) :
    (∀ k r, lookupRec db.journals k = some r →
       lookupRec ((PersistJournal db now jrn).2).journals k = some r) ∧
    (∀ k r, lookupRec db.transactions k = some r →
       lookupRec ((PersistJournal db now jrn).2).transactions k = some r) ∧
    ((PersistAccount db now a).2.journals = db.journals ∧
     (PersistAccount db now a).2.transactions = db.transactions) ∧
    ((UpdateAccount db now a).2.journals = db.journals ∧
     (UpdateAccount db now a).2.transactions = db.transactions) := by
  refine ⟨?_, ?_, ?_, ?_⟩
  · intro k r hk
    cases jrn with
    | none => exact hk
    | some j =>
      cases hv : validateJournal db j with
      | some e => rw [persistJournal_some_err db now j e hv]; exact hk
      | none =>
        rw [persistJournal_some_ok db now j hv]
        show lookupRec (doPersist db now j).journals k = some r
        have hlook := (validateJournal_none_facts db j hv).2.1
        have hne : k ≠ j.journalId := by
          intro hkk
          rw [hkk] at hk
          rw [hk] at hlook
          simp at hlook
        unfold doPersist
        rw [foldApply_journals, lookupRec_setRec_ne _ _ _ _ hne]
        exact hk
  · intro k r hk
    cases jrn with
    | none => exact hk
    | some j =>
      cases hv : validateJournal db j with
      | some e => rw [persistJournal_some_err db now j e hv]; exact hk
      | none =>
        rw [persistJournal_some_ok db now j hv]
        show lookupRec (doPersist db now j).transactions k = some r
        have hfree := (validateJournal_none_facts db j hv).2.2
        unfold doPersist
        apply foldApply_transactions_frame
        · intro t ht hkk
          have habs := hfree t ht
          rw [hkk, hk] at habs
          simp at habs
        · exact hk
  · unfold PersistAccount
    repeat' split
    all_goals exact ⟨rfl, rfl⟩
  · unfold UpdateAccount
    repeat' split
    all_goals exact ⟨rfl, rfl⟩

/-- C5 witness: persisting another journal `J3` on the store that already
holds `J1` leaves `J1`'s journal row and `T1`'s transaction row intact, and
the account operations leave both tables untouched. -/
theorem claim5_persisted_rows_immutable_witness :
    (lookupRec dbWithJ1.journals "J1" = some jrnJ1Row ∧
     lookupRec ((PersistJournal dbWithJ1 6 (some jrnJ3)).2).journals "J1" = some jrnJ1Row) ∧
    (lookupRec dbWithJ1.transactions "T1" = some trxT1Row ∧
     lookupRec ((PersistJournal dbWithJ1 6 (some jrnJ3)).2).transactions "T1" = some trxT1Row) ∧
    ((PersistAccount dbWithJ1 6 updA1).2.journals = dbWithJ1.journals ∧
     (PersistAccount dbWithJ1 6 updA1).2.transactions = dbWithJ1.transactions) ∧
    ((UpdateAccount dbWithJ1 6 updA1).2.journals = dbWithJ1.journals ∧
     (UpdateAccount dbWithJ1 6 updA1).2.transactions = dbWithJ1.transactions) := by
  have main := claim5_persisted_rows_immutable dbWithJ1 6 (some jrnJ3) updA1
  exact ⟨⟨by decide, main.1 "J1" jrnJ1Row (by decide)⟩,
    ⟨by decide, main.2.1 "T1" trxT1Row (by decide)⟩, main.2.2.1, main.2.2.2⟩

/-- C7 (pagination modelled from the spec): for both listing calls, the
returned metadata reports the true total count and total page count, a page
size exceeding the remaining matching items yields exactly the remaining
items with no error, and an out-of-range page yields an empty result. -/
theorem claim7_pagination_boundary (db : DB) (fromTime untilTime : Nat) (req : PageRequest)
    (hwf : ∀ p ∈ db.journals, p.1 = p.2.journalId)
    (hrev : ∀ p ∈ db.journals, p.2.reversal = false) :
    (∃ pr js, ListJournals db fromTime untilTime req = Except.ok (pr, js) ∧
       pr.TotalEntries = (journalsInRange db fromTime untilTime).length ∧
       pr.TotalPages =
         ((journalsInRange db fromTime untilTime).length + req.itemSize - 1) / req.itemSize ∧
       js.length = min req.itemSize ((journalsInRange db fromTime untilTime).length -
         min (req.pageNo * req.itemSize) (journalsInRange db fromTime untilTime).length) ∧
       ((journalsInRange db fromTime untilTime).length ≤ req.pageNo * req.itemSize →
         js = [])) ∧
    ((ListAccounts db req).1.TotalEntries = db.accounts.length ∧
     (ListAccounts db req).1.TotalPages =
       (db.accounts.length + req.itemSize - 1) / req.itemSize ∧
     ((ListAccounts db req).2).length = min req.itemSize (db.accounts.length -
       min (req.pageNo * req.itemSize) db.accounts.length) ∧
     (db.accounts.length ≤ req.pageNo * req.itemSize → (ListAccounts db req).2 = [])) := by
  constructor
  · have hmem : ∀ r ∈ ((sortStable (fun a b => decide (a.journalingTime < b.journalingTime))
        (journalsInRange db fromTime untilTime)).drop
          (PageResultFor req (journalsInRange db fromTime untilTime).length).Offset).take
          (PageResultFor req (journalsInRange db fromTime untilTime).length).PageSize,
        (lookupRec db.journals r.journalId).isSome = true := by
      intro r hr
      have hr1 : r ∈ sortStable (fun a b => decide (a.journalingTime < b.journalingTime))
          (journalsInRange db fromTime untilTime) :=
        List.mem_of_mem_drop (List.mem_of_mem_take hr)
      have hr2 : r ∈ journalsInRange db fromTime untilTime := (mem_sortStable _ _ _).mp hr1
      have hr3 : r ∈ db.journals.map (fun p => p.2) := (List.mem_filter.mp hr2).1
      obtain ⟨p, hp, hpe⟩ := List.mem_map.mp hr3
      have hk : p.1 = r.journalId := by rw [hwf p hp, hpe]
      have := lookupRec_isSome_of_mem db.journals p hp
      rwa [hk] at this
    obtain ⟨js, hjs, hids⟩ :=
      collectJournals_ok db db.journals.length hwf hrev _ hmem
    have hlen : js.length = min
        (PageResultFor req (journalsInRange db fromTime untilTime).length).PageSize
        ((journalsInRange db fromTime untilTime).length -
          (PageResultFor req (journalsInRange db fromTime untilTime).length).Offset) := by
      have h1 := congrArg List.length hids
      simp only [List.length_map] at h1
      rw [h1, List.length_take, List.length_drop, length_sortStable]
    refine ⟨PageResultFor req (journalsInRange db fromTime untilTime).length, js, ?_, rfl, rfl, ?_, ?_⟩
    · show (match collectJournals db (db.journals.length + 1) _ with
            | Except.error e => Except.error e
            | Except.ok journals => Except.ok (_, journals)) = _
      rw [hjs]
    · rw [hlen]
      simp only [PageResultFor]
      omega
    · intro hout
      rw [← List.length_eq_zero, hlen]
      simp only [PageResultFor]
      omega
  · refine ⟨?_, ?_, ?_, ?_⟩
    · simp [ListAccounts, PageResultFor]
    · simp [ListAccounts, PageResultFor]
    · simp only [ListAccounts, PageResultFor, List.length_map, List.length_take,
        List.length_drop, length_sortStable]
      omega
    · intro hout
      rw [← List.length_eq_zero]
      simp only [ListAccounts, PageResultFor, List.length_map, List.length_take,
        List.length_drop, length_sortStable]
      omega

/-- C7 witness: on the store holding the single journal `J1` (journaling
time 2) and two accounts, a page request of size 5 returns exactly the one
remaining journal and both accounts, with total counts 1 and 2 and one page
each. -/
theorem claim7_pagination_boundary_witness :
    (∃ pr js, ListJournals dbWithJ1 1 10 { pageNo := 0, itemSize := 5 } = Except.ok (pr, js) ∧
       pr.TotalEntries = (journalsInRange dbWithJ1 1 10).length ∧
       pr.TotalPages = ((journalsInRange dbWithJ1 1 10).length + 5 - 1) / 5 ∧
       js.length = min 5 ((journalsInRange dbWithJ1 1 10).length -
         min (0 * 5) (journalsInRange dbWithJ1 1 10).length) ∧
       ((journalsInRange dbWithJ1 1 10).length ≤ 0 * 5 → js = [])) ∧
    ((ListAccounts dbWithJ1 { pageNo := 0, itemSize := 5 }).1.TotalEntries =
       dbWithJ1.accounts.length ∧
     (ListAccounts dbWithJ1 { pageNo := 0, itemSize := 5 }).1.TotalPages =
       (dbWithJ1.accounts.length + 5 - 1) / 5 ∧
     ((ListAccounts dbWithJ1 { pageNo := 0, itemSize := 5 }).2).length =
       min 5 (dbWithJ1.accounts.length - min (0 * 5) dbWithJ1.accounts.length) ∧
     (dbWithJ1.accounts.length ≤ 0 * 5 →
       (ListAccounts dbWithJ1 { pageNo := 0, itemSize := 5 }).2 = [])) :=
  claim7_pagination_boundary dbWithJ1 1 10 { pageNo := 0, itemSize := 5 }
    (by decide) (by decide)

/-- C8: `ListTransactionsOnAccount` on a store holding two rows for account
`A1` (times 10 and 99), queried with time range 0..50 and page size 1,
returns BOTH rows — the time range and the page slice are ignored — even
though its own page metadata says the page holds one item. -/
theorem claim8_list_transactions_ignores_range_and_page :
    ((ListTransactionsOnAccount dbTwoTransactions 0 50 "A1"
        { pageNo := 0, itemSize := 1 }).1).PageSize = 1 ∧
    ((ListTransactionsOnAccount dbTwoTransactions 0 50 "A1"
        { pageNo := 0, itemSize := 1 }).2).length = 2 ∧
    ((ListTransactionsOnAccount dbTwoTransactions 0 50 "A1"
        { pageNo := 0, itemSize := 1 }).2).map (fun t => t.transactionTime) = [10, 99] := by
  decide

end Acccore
